import Mathlib

/-!
Verification development for the Expense-Tracker backend.

The definitions below are a shallow embedding of the backend source:
`backend/models/Expense.js` (the mongoose schema, its validators and the
two aggregation statics) and `backend/controllers/expenseController.js`
(the six controller actions), together with the generic error-handling
middleware of `backend/server.js`.

Modelling conventions:
* A JavaScript `Date` is modelled by `DateTime` (UTC calendar fields plus
  milliseconds within the day); chronological comparison is via
  `DateTime.code`, which is strictly monotone in the chronological order
  for calendar-valid field values (month 1–12, day 1–31, ms < 86400000).
* Mongo documents live in a `List Expense` (the collection, in natural
  insertion order); `amount` is modelled as `Int`.
* A request that mongoose rejects with a `CastError` (malformed ObjectId
  in `:id`) reaches the generic error middleware of `server.js`, which
  answers with `err.statusCode || 500`; a `CastError` carries no
  `statusCode`, hence status 500.
-/

/-- Calendar date-time in UTC: year, month (1–12), day (1–31) and
milliseconds elapsed within the day. Mirrors the components a JS `Date`
exposes in UTC. -/
structure DateTime where
  year : Int
  month : Nat
  day : Nat
  msOfDay : Nat
deriving DecidableEq

/-- Linearisation of a `DateTime` used for chronological comparison; for
calendar-valid field values (month ≤ 12, day ≤ 31, msOfDay < 86400000) it
is strictly monotone in the chronological order, matching comparison of
JS `Date` epoch values. -/
def DateTime.code (d : DateTime) : Int :=
  ((d.year * 13 + d.month) * 32 + d.day) * 86400000 + d.msOfDay

/-- An Expense document as persisted by the mongoose model: the five
schema fields plus `_id` and the two `timestamps: true` fields. -/
structure Expense where
  id : String
  title : String
  amount : Int
  category : String
  date : DateTime
  description : Option String
  createdAt : DateTime
  updatedAt : DateTime
deriving DecidableEq

/-- The category enumeration of the schema (`enum: [...]` on `category`). -/
def categories : List String :=
  ["Food", "Transportation", "Entertainment", "Shopping", "Utilities",
   "Housing", "Healthcare", "Personal", "Education", "Gifts", "Travel", "Other"]

/-- JS string `split` with a single-character separator: `splitChar c s`
returns the (always non-empty) list of chunks of `s` between occurrences
of `c`, as `sort.split(':')` does in the controller. -/
def splitChar (sep : Char) : List Char → List (List Char)
  | [] => [[]]
  | c :: rest =>
    let r := splitChar sep rest
    if c = sep then [] :: r
    else
      match r with
      | [] => [[c]]
      | h :: t => (c :: h) :: t

/-- Parse of the `sort` query parameter, mirroring
`const [field, order] = sort.split(':')` followed by
`{ [field]: order === 'asc' ? 1 : -1 }`: the first chunk is the field
name, and the direction is `1` exactly when the second chunk is the
string `asc` (a missing second chunk is `undefined`, hence `-1`). -/
def sortSpecOf (s : String) : String × Int :=
  let parts := (splitChar ':' s.data).map (fun l => String.mk l)
  (parts.headD "", if parts[1]? = some "asc" then 1 else -1)

/-- Order used by Mongo when sorting on the `description` field: a
missing value sorts before every present value, present values compare
as strings. -/
def optStrLe : Option String → Option String → Bool
  | none, _ => true
  | some _, none => false
  | some a, some b => decide (a ≤ b)

/-- Ascending comparison of two documents on the field named `field`, as
Mongo's sort applies it: each schema field compares by its own value
order, and a name matching no schema path compares all documents equal
(every value missing). -/
def fieldLe (field : String) (a b : Expense) : Bool :=
  if field = "title" then decide (a.title ≤ b.title)
  else if field = "amount" then decide (a.amount ≤ b.amount)
  else if field = "category" then decide (a.category ≤ b.category)
  else if field = "date" then decide (a.date.code ≤ b.date.code)
  else if field = "createdAt" then decide (a.createdAt.code ≤ b.createdAt.code)
  else if field = "updatedAt" then decide (a.updatedAt.code ≤ b.updatedAt.code)
  else if field = "_id" then decide (a.id ≤ b.id)
  else if field = "description" then optStrLe a.description b.description
  else true

/-- Comparison on documents induced by a `(field, direction)` sort
specification: direction `1` sorts ascending on the field, any other
direction descending. -/
def sortRelB (field : String) (dir : Int) (a b : Expense) : Bool :=
  if dir = 1 then fieldLe field a b else fieldLe field b a

/-- Propositional form of `sortRelB`, for `List.Sorted`. -/
def sortRel (field : String) (dir : Int) (a b : Expense) : Prop :=
  sortRelB field dir a b = true

instance (field : String) (dir : Int) : DecidableRel (sortRel field dir) :=
  fun a b => instDecidableEqBool _ _

/-- Raw HTTP query parameters of `GET /api/expenses`: each is `none` when
absent from the URL, `some s` when supplied (possibly the empty string). -/
structure RawQuery where
  category : Option String
  startDate : Option String
  endDate : Option String
  sort : Option String

/-- JS truthiness of an optional string parameter: `undefined` and the
empty string are falsy, every other string truthy. This is the test the
controller performs with `if (category)`, `if (startDate || endDate)`,
`if (sort)`. -/
def truthy : Option String → Bool
  | none => false
  | some s => !(s == "")

/-- The document predicate built by `getExpenses` from the raw query: a
conjunction of a category-equality test and lower/upper date bounds, each
present only when the corresponding parameter is truthy. `parseDate`
stands for the JS `new Date(string)` conversion. -/
def matchesQuery (parseDate : String → DateTime) (q : RawQuery) (e : Expense) : Bool :=
  (if truthy q.category then e.category == q.category.getD "" else true) &&
  (if truthy q.startDate then decide ((parseDate (q.startDate.getD "")).code ≤ e.date.code)
   else true) &&
  (if truthy q.endDate then decide (e.date.code ≤ (parseDate (q.endDate.getD "")).code)
   else true)

/-- The effective `(field, direction)` sort option of `getExpenses`:
`{ date: -1 }` by default, otherwise the parse of the `sort` parameter. -/
def effectiveSort (q : RawQuery) : String × Int :=
  if truthy q.sort then sortSpecOf (q.sort.getD "") else ("date", -1)

/-- Response shape of `GET /api/expenses`:
`{ success, count, total, data }` with HTTP status. -/
structure ListResponse where
  status : Nat
  success : Bool
  count : Nat
  total : Int
  data : List Expense
deriving DecidableEq

/-- The `getExpenses` controller action: build the filter from the query
parameters, fetch the matching documents sorted by the effective sort
option, and answer 200 with count, summed amount and the documents. -/
def getExpenses (parseDate : String → DateTime) (store : List Expense)
    (q : RawQuery) : ListResponse :=
  let s := effectiveSort q
  let expenses := List.insertionSort (sortRel s.1 s.2)
    (store.filter (matchesQuery parseDate q))
  { status := 200
    success := true
    count := expenses.length
    total := (expenses.map (·.amount)).sum
    data := expenses }

/-- Validity test mongoose applies when casting a route `:id` parameter
to an ObjectId: a 24-character hexadecimal string (or a 12-character
binary string) casts successfully; anything else raises a `CastError`. -/
def isValidObjectId (s : String) : Bool :=
  (s.length == 24 && s.data.all (fun c => c.isDigit || ("abcdefABCDEF".data.contains c)))
    || s.length == 12

/-- Result of a store operation that casts its id argument: `.error`
models a thrown mongoose `CastError` (which carries no `statusCode`),
`.ok` the resolved value. -/
def findById (store : List Expense) (id : String) : Except Unit (Option Expense) :=
  if isValidObjectId id then .ok (store.find? (fun e => e.id == id)) else .error ()

/-- Response shape of the single-document endpoints:
`{ success, data }` or `{ success: false, error }` with HTTP status. -/
structure ItemResponse where
  status : Nat
  success : Bool
  error : Option String
  data : Option Expense
deriving DecidableEq

/-- The `getExpense` controller action for `GET /api/expenses/:id`: a
`CastError` from `findById` propagates through `next(error)` to the
generic middleware of `server.js`, which answers `err.statusCode || 500`
with the error message — a `CastError` has no `statusCode`, hence 500; a
resolved-but-missing id answers 404 `Expense not found`; a found
document answers 200. -/
def getExpense (store : List Expense) (id : String) : ItemResponse :=
  match findById store id with
  | .error _ =>
      { status := 500, success := false
        error := some "Cast to ObjectId failed", data := none }
  | .ok none =>
      { status := 404, success := false
        error := some "Expense not found", data := none }
  | .ok (some e) =>
      { status := 200, success := true, error := none, data := some e }

/-- A request body for create or update: each schema field optionally
supplied. -/
structure Draft where
  title : Option String
  amount : Option Int
  category : Option String
  date : Option DateTime
  description : Option String

/-- JS `String.prototype.trim`, the transformation applied by the
`trim: true` setters of the schema: strip whitespace from both ends. -/
def jsTrim (s : String) : String :=
  String.mk (((s.data.dropWhile Char.isWhitespace).reverse.dropWhile
    Char.isWhitespace).reverse)

/-- Validation of the `title` path: `required` rejects a missing value
and (for strings) the empty string, where the `trim: true` setter has
already stripped surrounding whitespace; then `maxlength: 100`. One
message per path, the first failing validator. -/
def titleErrors : Option String → List (String × String)
  | none => [("title", "Please add a title")]
  | some t =>
    if jsTrim t = "" then [("title", "Please add a title")]
    else if (jsTrim t).length > 100 then
      [("title", "Title cannot be more than 100 characters")]
    else []

/-- Validation of the `amount` path: `required`, then `min: 0`. -/
def amountErrors : Option Int → List (String × String)
  | none => [("amount", "Please add an amount")]
  | some a =>
    if a < 0 then [("amount", "Amount must be a positive number")] else []

/-- Validation of the `category` path: a missing value receives the
default `Other` (which satisfies the enum), the empty string fails
`required`, and any other value outside the enumeration fails the enum
validator. -/
def categoryErrors : Option String → List (String × String)
  | none => []
  | some c =>
    if c = "" then [("category", "Please add a category")]
    else if categories.contains c then []
    else [("category", "is not a valid enum value for path category")]

/-- Validation of the optional `description` path: `maxlength: 500` on
the trimmed value. -/
def descriptionErrors : Option String → List (String × String)
  | none => []
  | some s =>
    if (jsTrim s).length > 500 then
      [("description", "Description cannot be more than 500 characters")]
    else []

/-- Full validation of a create draft, as mongoose performs it before
persisting `Expense.create(req.body)`: one `(path, message)` entry per
violated field. -/
def validateCreate (d : Draft) : List (String × String) :=
  titleErrors d.title ++ amountErrors d.amount ++
    categoryErrors d.category ++ descriptionErrors d.description

/-- Validation run by `findByIdAndUpdate(..., { runValidators: true })`:
mongoose update validators run only on the paths present in the update
body. -/
def validateUpdate (u : Draft) : List (String × String) :=
  (match u.title with | none => [] | some t => titleErrors (some t)) ++
  (match u.amount with | none => [] | some a => amountErrors (some a)) ++
  (match u.category with | none => [] | some c => categoryErrors (some c)) ++
  (match u.description with | none => [] | some s => descriptionErrors (some s))

/-- The document persisted for a valid create draft: schema setters trim
the string paths, `category` defaults to `Other`, `date` defaults to the
creation instant (`default: Date.now`), and `timestamps: true` sets
`createdAt` and `updatedAt` to the creation instant. -/
def buildExpense (newId : String) (now : DateTime) (d : Draft) : Expense :=
  { id := newId
    title := jsTrim (d.title.getD "")
    amount := d.amount.getD 0
    category := d.category.getD "Other"
    date := d.date.getD now
    description := d.description.map jsTrim
    createdAt := now
    updatedAt := now }

/-- Response of a mutating endpoint, with the resulting collection;
`error` collects the per-field messages of a 400, or the single error
string of a 404/500. -/
structure MutResponse where
  status : Nat
  success : Bool
  error : List String
  data : Option Expense
  store : List Expense
deriving DecidableEq

/-- The `createExpense` controller action for `POST /api/expenses`:
`Expense.create` validates the draft, persists nothing and raises a
`ValidationError` when any field is invalid (the controller answers 400
with one message per violated field); otherwise the document is
persisted and answered with 201. `newId` is the fresh ObjectId mongoose
assigns, `now` the creation instant. -/
def createExpense (store : List Expense) (newId : String) (now : DateTime)
    (d : Draft) : MutResponse :=
  let errs := validateCreate d
  if errs.isEmpty then
    let e := buildExpense newId now d
    { status := 201, success := true, error := [], data := some e,
      store := store ++ [e] }
  else
    { status := 400, success := false, error := errs.map (fun p => p.2),
      data := none, store := store }

/-- The merged document produced by `findByIdAndUpdate` with `new: true`:
paths present in the body are `$set` (string setters trim), all other
paths keep their stored value, and `timestamps: true` refreshes
`updatedAt` to the update instant. -/
def applyUpdate (e : Expense) (u : Draft) (now : DateTime) : Expense :=
  { e with
    title := match u.title with | some t => jsTrim t | none => e.title
    amount := u.amount.getD e.amount
    category := u.category.getD e.category
    date := u.date.getD e.date
    description := match u.description with | some s => some (jsTrim s) | none => e.description
    updatedAt := now }

/-- The `updateExpense` controller action for `PUT /api/expenses/:id`: a
malformed id raises a `CastError` which the generic middleware answers
with 500; an id matching no document answers 404; invalid updated paths
raise a `ValidationError` answered with 400 and nothing is written;
otherwise the matched document is updated and answered with 200. -/
def updateExpense (store : List Expense) (id : String) (u : Draft)
    (now : DateTime) : MutResponse :=
  if isValidObjectId id then
    match store.find? (fun e => e.id == id) with
    | none =>
      { status := 404, success := false, error := ["Expense not found"],
        data := none, store := store }
    | some e =>
      let errs := validateUpdate u
      if errs.isEmpty then
        { status := 200, success := true, error := [],
          data := some (applyUpdate e u now),
          store := store.map (fun x => if x.id == id then applyUpdate x u now else x) }
      else
        { status := 400, success := false, error := errs.map (fun p => p.2),
          data := none, store := store }
  else
    { status := 500, success := false, error := ["Cast to ObjectId failed"],
      data := none, store := store }

/-- Grand total of the stats endpoint: the `$group: { _id: null }` sum
over the whole collection, with `total.length > 0 ? total[0].total : 0`
yielding 0 on an empty collection. -/
def grandTotal (store : List Expense) : Int :=
  (store.map (fun e => e.amount)).sum

/-- Descending-by-total order of the `$sort: { total: -1 }` stage of
`getTotalByCategory`. -/
def totalDesc (a b : String × Int) : Prop :=
  b.2 ≤ a.2

instance : DecidableRel totalDesc :=
  fun a b => Int.decLe b.2 a.2

instance : IsTotal (String × Int) totalDesc :=
  ⟨fun a b => le_total b.2 a.2⟩

instance : IsTrans (String × Int) totalDesc :=
  ⟨fun _ _ _ h1 h2 => le_trans h2 h1⟩

/-- The `getTotalByCategory` static of the model: `$group` by `category`
summing `amount` (one group per category value occurring in the
collection), then `$sort: { total: -1 }`. -/
def getTotalByCategory (store : List Expense) : List (String × Int) :=
  List.insertionSort totalDesc
    ((store.map (fun e => e.category)).dedup.map
      (fun c => (c, ((store.filter (fun e => e.category == c)).map (fun e => e.amount)).sum)))

/-- The lower bound `new Date(`year`-01-01)` of the `$match` stage of
`getMonthlyExpenses`: an ISO date-only string parses to UTC midnight. -/
def yearStart (y : Int) : DateTime :=
  ⟨y, 1, 1, 0⟩

/-- The upper bound `new Date(`year`-12-31)` of the `$match` stage:
UTC midnight at the start of December 31. -/
def yearEndBound (y : Int) : DateTime :=
  ⟨y, 12, 31, 0⟩

/-- The `$match` predicate of `getMonthlyExpenses`:
`date: { $gte: yearStart, $lte: yearEndBound }`. -/
def inYearRange (y : Int) (e : Expense) : Bool :=
  decide ((yearStart y).code ≤ e.date.code) &&
    decide (e.date.code ≤ (yearEndBound y).code)

/-- The group of documents the `$group` stage of `getMonthlyExpenses`
collects under the month key `m`: the `$match`-surviving documents whose
`$month: date` is `m`. -/
def monthGroup (store : List Expense) (y : Int) (m : Nat) : List Expense :=
  store.filter (fun e => inYearRange y e && e.date.month == m)

/-- The `getMonthlyExpenses` static of the model: `$match` on the year
range, `$group` by `{ $month: date }` summing `amount`, `$sort` by month
ascending. `$month` of a date is its calendar month 1–12, so enumerating
the candidate keys as `1..12` in ascending order realises the grouped
and sorted output exactly (groups with no document do not appear). -/
def getMonthlyExpenses (store : List Expense) (y : Int) : List (Nat × Int) :=
  ((List.range 12).map (fun n => n + 1)).filterMap (fun m =>
    if (monthGroup store y m).isEmpty then none
    else some (m, ((monthGroup store y m).map (fun e => e.amount)).sum))

/-- Response shape of `GET /api/expenses/stats`. -/
structure StatsResponse where
  status : Nat
  success : Bool
  total : Int
  byCategory : List (String × Int)
  byMonth : List (Nat × Int)
deriving DecidableEq

/-- The `getExpenseStats` controller action: the three aggregates,
answered with 200; `currentYear` is `new Date().getFullYear()` at the
server. -/
def getExpenseStats (store : List Expense) (currentYear : Int) : StatsResponse :=
  { status := 200
    success := true
    total := grandTotal store
    byCategory := getTotalByCategory store
    byMonth := getMonthlyExpenses store currentYear }

theorem optStrLe_total (a b : Option String) : optStrLe a b = true ∨ optStrLe b a = true := by
  cases a <;> cases b <;> simp [optStrLe] <;> exact le_total _ _

theorem optStrLe_trans {a b c : Option String} (h1 : optStrLe a b = true)
    (h2 : optStrLe b c = true) : optStrLe a c = true := by
  cases a <;> cases b <;> cases c <;> simp_all [optStrLe]
  exact le_trans h1 h2

theorem fieldLe_total (field : String) (a b : Expense) :
    fieldLe field a b = true ∨ fieldLe field b a = true := by
  unfold fieldLe
  split_ifs <;> first
    | (simp only [decide_eq_true_eq]; exact le_total _ _)
    | exact optStrLe_total _ _
    | (left; rfl)

theorem fieldLe_trans (field : String) {a b c : Expense}
    (h1 : fieldLe field a b = true) (h2 : fieldLe field b c = true) :
    fieldLe field a c = true := by
  unfold fieldLe at *
  split_ifs at * <;> first
    | (simp only [decide_eq_true_eq] at *; exact le_trans h1 h2)
    | exact optStrLe_trans h1 h2
    | rfl

instance (field : String) (dir : Int) : IsTotal Expense (sortRel field dir) := by
  constructor
  intro a b
  unfold sortRel sortRelB
  split_ifs
  · exact fieldLe_total field a b
  · exact fieldLe_total field b a

instance (field : String) (dir : Int) : IsTrans Expense (sortRel field dir) := by
  constructor
  intro a b c h1 h2
  unfold sortRel sortRelB at *
  split_ifs at *
  · exact fieldLe_trans field h1 h2
  · exact fieldLe_trans field h2 h1

theorem matchesQuery_eq_true (parseDate : String → DateTime) (q : RawQuery) (e : Expense) :
    matchesQuery parseDate q e = true ↔
      (truthy q.category = true → e.category = q.category.getD "") ∧
      (truthy q.startDate = true →
        (parseDate (q.startDate.getD "")).code ≤ e.date.code) ∧
      (truthy q.endDate = true →
        e.date.code ≤ (parseDate (q.endDate.getD "")).code) := by
  by_cases h1 : truthy q.category = true <;>
    by_cases h2 : truthy q.startDate = true <;>
      by_cases h3 : truthy q.endDate = true <;>
        simp [matchesQuery, h1, h2, h3, and_assoc]

theorem splitChar_not_mem {sep : Char} : ∀ {l : List Char}, sep ∉ l →
    splitChar sep l = [l]
  | [], _ => rfl
  | c :: rest, h => by
    have hc : ¬c = sep := fun hh => h (hh ▸ List.mem_cons_self c rest)
    have hr : sep ∉ rest := fun hh => h (List.mem_cons_of_mem c hh)
    simp [splitChar, hc, splitChar_not_mem hr]

theorem splitChar_append {sep : Char} {d : List Char} : ∀ {f : List Char}, sep ∉ f →
    splitChar sep (f ++ sep :: d) = f :: splitChar sep d
  | [], _ => by simp [splitChar]
  | c :: f, h => by
    have hc : ¬c = sep := fun hh => h (hh ▸ List.mem_cons_self c f)
    have hf : sep ∉ f := fun hh => h (List.mem_cons_of_mem c hh)
    simp [splitChar, hc, splitChar_append hf]

/-- C8: for every filter, the listing response satisfies: `count` equals
the number of records returned in `data`, and `total` equals the
arithmetic sum of `amount` over exactly those returned records —
equivalently, over the filtered subset — recomputed on each call. -/
theorem C8_count_total_consistent (parseDate : String → DateTime)
    (store : List Expense) (q : RawQuery) :
    (getExpenses parseDate store q).count = (getExpenses parseDate store q).data.length ∧
    (getExpenses parseDate store q).total
      = ((getExpenses parseDate store q).data.map (fun e => e.amount)).sum ∧
    (getExpenses parseDate store q).total
      = ((store.filter (matchesQuery parseDate q)).map (fun e => e.amount)).sum := by
  refine ⟨rfl, rfl, ?_⟩
  exact ((List.perm_insertionSort _ _).map _).sum_eq

/-- C10: a query parameter supplied as the empty string is treated
exactly as an absent parameter (JS falsiness), so no filter constraint
is applied for it; in particular a request with only `category=` (empty)
returns every stored record. -/
theorem C10_empty_params_ignored (parseDate : String → DateTime)
    (store : List Expense) (q : RawQuery) :
    getExpenses parseDate store { q with category := some "" }
      = getExpenses parseDate store { q with category := none } ∧
    getExpenses parseDate store { q with startDate := some "" }
      = getExpenses parseDate store { q with startDate := none } ∧
    getExpenses parseDate store { q with endDate := some "" }
      = getExpenses parseDate store { q with endDate := none } ∧
    ∀ e, e ∈ (getExpenses parseDate store
        ⟨some "", none, none, none⟩).data ↔ e ∈ store := by
  refine ⟨rfl, rfl, rfl, fun e => ?_⟩
  simp [getExpenses, matchesQuery, truthy, effectiveSort]

/-- C1 counterexample: on the malformed id `abc`, `GET /api/expenses/:id`
answers 500 (the mongoose `CastError` reaches the generic error
middleware), not the claimed 404 not-found result. -/
theorem C1_counterexample_malformed_id :
    (getExpense [] "abc").status = 500 ∧
    ¬((getExpense [] "abc").status = 404 ∧
      (getExpense [] "abc").error = some "Expense not found") := by
  decide

/-- C1 amended: a malformed id makes `GET /api/expenses/:id` answer a
generic 500 failure; a well-formed id that resolves to no record answers
404 with error `Expense not found`; a resolved record answers 200. -/
theorem C1_amended_id_resolution (store : List Expense) (id : String) :
    (isValidObjectId id = false →
      (getExpense store id).status = 500 ∧ (getExpense store id).success = false) ∧
    (isValidObjectId id = true → store.find? (fun e => e.id == id) = none →
      (getExpense store id).status = 404 ∧ (getExpense store id).success = false ∧
      (getExpense store id).error = some "Expense not found") ∧
    (isValidObjectId id = true → ∀ e, store.find? (fun x => x.id == id) = some e →
      (getExpense store id).status = 200 ∧ (getExpense store id).data = some e) := by
  by_cases h : isValidObjectId id = true
  · cases hf : store.find? (fun e => e.id == id) with
    | none => simp [getExpense, findById, h, hf]
    | some e => simp [getExpense, findById, h, hf]
  · simp [getExpense, findById, h]

/-- C1 amended, witness at the malformed id `zz`. -/
theorem C1_amended_id_resolution_witness :
    (getExpense [] "zz").status = 500 ∧ (getExpense [] "zz").success = false :=
  (C1_amended_id_resolution [] "zz").1 (by decide)

/-- C6: for every combination of the optional parameters, the listing
returns exactly the records satisfying the conjunction of the supplied
constraints (each bound independently optional, an omitted or falsy
parameter imposing none), ordered by the effective `(field, direction)`
sort, which is `date` descending when `sort` is unspecified; an empty
match yields a 200 response with an empty `data`, never an error. -/
theorem C6_findMany_filter_sort (parseDate : String → DateTime)
    (store : List Expense) (q : RawQuery) :
    (getExpenses parseDate store q).status = 200 ∧
    (getExpenses parseDate store q).success = true ∧
    (∀ e, e ∈ (getExpenses parseDate store q).data ↔ e ∈ store ∧
      (truthy q.category = true → e.category = q.category.getD "") ∧
      (truthy q.startDate = true → (parseDate (q.startDate.getD "")).code ≤ e.date.code) ∧
      (truthy q.endDate = true → e.date.code ≤ (parseDate (q.endDate.getD "")).code)) ∧
    List.Sorted (sortRel (effectiveSort q).1 (effectiveSort q).2)
      (getExpenses parseDate store q).data ∧
    (q.sort = none →
      List.Sorted (sortRel "date" (-1)) (getExpenses parseDate store q).data) := by
  refine ⟨rfl, rfl, fun e => ?_, ?_, fun hs => ?_⟩
  · rw [← matchesQuery_eq_true parseDate q e]
    simp [getExpenses]
  · exact List.sorted_insertionSort _ _
  · have he : effectiveSort q = ("date", -1) := by
      simp [effectiveSort, hs, truthy]
    have hsorted := List.sorted_insertionSort (sortRel "date" (-1))
      (store.filter (matchesQuery parseDate q))
    simpa [getExpenses, he] using hsorted

/-- C6, witness: the default sort applies on a concrete parameter-free
request. -/
theorem C6_findMany_filter_sort_witness :
    List.Sorted (sortRel "date" (-1))
      (getExpenses (fun _ => ⟨0, 1, 1, 0⟩) [] ⟨none, none, none, none⟩).data :=
  (C6_findMany_filter_sort (fun _ => ⟨0, 1, 1, 0⟩) []
    ⟨none, none, none, none⟩).2.2.2.2 rfl

/-- C9: in `sort=field:direction`, every direction token other than the
exact string `asc` (including `desc`, misspellings, mixed case, the
empty token) yields descending order, and the field token is not
validated: any colon-free field token is accepted as the sort key and
the request succeeds with 200. -/
theorem C9_sort_direction_parsing (field dir : String) (hf : ':' ∉ field.data)
    (hd : ':' ∉ dir.data) (hdir : dir ≠ "asc") (parseDate : String → DateTime)
    (store : List Expense) (cat sd ed : Option String) :
    sortSpecOf (field ++ ":" ++ dir) = (field, -1) ∧
    (getExpenses parseDate store ⟨cat, sd, ed, some (field ++ ":" ++ dir)⟩).status = 200 ∧
    (getExpenses parseDate store ⟨cat, sd, ed, some (field ++ ":" ++ dir)⟩).success = true ∧
    List.Sorted (sortRel field (-1))
      (getExpenses parseDate store ⟨cat, sd, ed, some (field ++ ":" ++ dir)⟩).data := by
  have hmk : ∀ s : String, String.mk s.data = s := fun _ => rfl
  have hdata : (field ++ ":" ++ dir).data = field.data ++ ':' :: dir.data := by
    simp [String.data_append]
  have hspec : sortSpecOf (field ++ ":" ++ dir) = (field, -1) := by
    unfold sortSpecOf
    rw [hdata, splitChar_append hf, splitChar_not_mem hd]
    simp [hmk, hdir]
  have hne : (field ++ ":" ++ dir) ≠ "" := by
    intro hh
    have := congrArg String.data hh
    rw [hdata] at this
    simp at this
  have heff : effectiveSort ⟨cat, sd, ed, some (field ++ ":" ++ dir)⟩ = (field, -1) := by
    simp [effectiveSort, truthy, hne, hspec]
  refine ⟨hspec, rfl, rfl, ?_⟩
  have hsorted := List.sorted_insertionSort (sortRel field (-1))
    (store.filter (matchesQuery parseDate ⟨cat, sd, ed, some (field ++ ":" ++ dir)⟩))
  simpa [getExpenses, heff] using hsorted

/-- C9, witness at the concrete field token `amount` and direction token
`desc`. -/
theorem C9_sort_direction_parsing_witness :
    sortSpecOf ("amount" ++ ":" ++ "desc") = ("amount", -1) :=
  (C9_sort_direction_parsing "amount" "desc" (by decide) (by decide) (by decide)
    (fun _ => ⟨0, 1, 1, 0⟩) [] none none none).1

/-- C4: a draft violating at least one constraint makes `POST
/api/expenses` fail with 400 carrying one message per violated field,
and the collection is unchanged — nothing is persisted. -/
theorem C4_invalid_insert_rejected (store : List Expense) (newId : String)
    (now : DateTime) (d : Draft) (h : validateCreate d ≠ []) :
    (createExpense store newId now d).status = 400 ∧
    (createExpense store newId now d).success = false ∧
    (createExpense store newId now d).error
      = (validateCreate d).map (fun p => p.2) ∧
    (createExpense store newId now d).error ≠ [] ∧
    (createExpense store newId now d).data = none ∧
    (createExpense store newId now d).store = store := by
  have hne : ¬((validateCreate d).isEmpty = true) := by
    simpa [List.isEmpty_iff] using h
  simp [createExpense, hne, h]

/-- C4, witness at a draft violating the `amount ≥ 0` constraint. -/
theorem C4_invalid_insert_rejected_witness :
    (createExpense [] "aaaaaaaaaaaaaaaaaaaaaaaa" ⟨2024, 1, 1, 0⟩
      ⟨some "Lunch", some (-1), none, none, none⟩).status = 400 ∧
    (createExpense [] "aaaaaaaaaaaaaaaaaaaaaaaa" ⟨2024, 1, 1, 0⟩
      ⟨some "Lunch", some (-1), none, none, none⟩).store = [] :=
  ⟨(C4_invalid_insert_rejected [] "aaaaaaaaaaaaaaaaaaaaaaaa" ⟨2024, 1, 1, 0⟩
      ⟨some "Lunch", some (-1), none, none, none⟩ (by decide)).1,
   (C4_invalid_insert_rejected [] "aaaaaaaaaaaaaaaaaaaaaaaa" ⟨2024, 1, 1, 0⟩
      ⟨some "Lunch", some (-1), none, none, none⟩ (by decide)).2.2.2.2.2⟩

/-- C5: a valid draft is persisted with 201: the stored record carries
the draft values (title and description trimmed, category defaulting to
`Other`, date defaulting to the creation instant), the fresh id, and
equal `createdAt`/`updatedAt`; a subsequent `findById` on the fresh id
resolves to exactly that record. -/
theorem C5_valid_insert_roundtrip (store : List Expense) (newId : String)
    (now : DateTime) (d : Draft) (hv : validateCreate d = [])
    (hid : isValidObjectId newId = true)
    (hfresh : ∀ e ∈ store, e.id ≠ newId) :
    (createExpense store newId now d).status = 201 ∧
    (createExpense store newId now d).success = true ∧
    (createExpense store newId now d).data = some (buildExpense newId now d) ∧
    (createExpense store newId now d).store = store ++ [buildExpense newId now d] ∧
    (buildExpense newId now d).id = newId ∧
    (buildExpense newId now d).createdAt = now ∧
    (buildExpense newId now d).updatedAt = now ∧
    (buildExpense newId now d).title = jsTrim (d.title.getD "") ∧
    (buildExpense newId now d).amount = d.amount.getD 0 ∧
    (buildExpense newId now d).category = d.category.getD "Other" ∧
    (buildExpense newId now d).date = d.date.getD now ∧
    (buildExpense newId now d).description = d.description.map jsTrim ∧
    findById (createExpense store newId now d).store newId
      = .ok (some (buildExpense newId now d)) := by
  have hstore : (createExpense store newId now d).store
      = store ++ [buildExpense newId now d] := by
    simp [createExpense, hv]
  have hfind : (store ++ [buildExpense newId now d]).find? (fun e => e.id == newId)
      = some (buildExpense newId now d) := by
    rw [List.find?_append]
    have h1 : store.find? (fun e => e.id == newId) = none := by
      rw [List.find?_eq_none]
      intro x hx
      simpa using hfresh x hx
    rw [h1]
    simp [buildExpense]
  refine ⟨by simp [createExpense, hv], by simp [createExpense, hv],
    by simp [createExpense, hv], hstore, rfl, rfl, rfl, rfl, rfl, rfl, rfl, rfl, ?_⟩
  rw [hstore]
  simp [findById, hid, hfind]

/-- C5, witness at a concrete valid draft. -/
theorem C5_valid_insert_roundtrip_witness :
    (createExpense [] "aaaaaaaaaaaaaaaaaaaaaaaa" ⟨2024, 1, 1, 0⟩
      ⟨some "Lunch", some 100, some "Food", none, none⟩).status = 201 ∧
    findById (createExpense [] "aaaaaaaaaaaaaaaaaaaaaaaa" ⟨2024, 1, 1, 0⟩
        ⟨some "Lunch", some 100, some "Food", none, none⟩).store
        "aaaaaaaaaaaaaaaaaaaaaaaa"
      = .ok (some (buildExpense "aaaaaaaaaaaaaaaaaaaaaaaa" ⟨2024, 1, 1, 0⟩
        ⟨some "Lunch", some 100, some "Food", none, none⟩)) :=
  ⟨(C5_valid_insert_roundtrip [] "aaaaaaaaaaaaaaaaaaaaaaaa" ⟨2024, 1, 1, 0⟩
      ⟨some "Lunch", some 100, some "Food", none, none⟩ (by decide) (by decide)
      (by simp)).1,
   (C5_valid_insert_roundtrip [] "aaaaaaaaaaaaaaaaaaaaaaaa" ⟨2024, 1, 1, 0⟩
      ⟨some "Lunch", some 100, some "Food", none, none⟩ (by decide) (by decide)
      (by simp)).2.2.2.2.2.2.2.2.2.2.2.2⟩

/-- C3: a partial update of an existing record changes exactly the
supplied fields (unsupplied fields, the id and `createdAt` retain their
prior values), refreshes `updatedAt` to the update instant — strictly
advancing it whenever the update instant is later than the stored one,
whichever fields changed — and an id resolving to no record answers
404 not-found. -/
theorem C3_partial_update_frame (store : List Expense) (id : String)
    (u : Draft) (now : DateTime) (hid : isValidObjectId id = true)
    (hv : validateUpdate u = []) :
    (store.find? (fun x => x.id == id) = none →
      (updateExpense store id u now).status = 404 ∧
      (updateExpense store id u now).success = false ∧
      (updateExpense store id u now).error = ["Expense not found"] ∧
      (updateExpense store id u now).store = store) ∧
    (∀ e, store.find? (fun x => x.id == id) = some e →
      (updateExpense store id u now).status = 200 ∧
      (updateExpense store id u now).success = true ∧
      (updateExpense store id u now).data = some (applyUpdate e u now) ∧
      (applyUpdate e u now).id = e.id ∧
      (applyUpdate e u now).createdAt = e.createdAt ∧
      (u.title = none → (applyUpdate e u now).title = e.title) ∧
      (u.amount = none → (applyUpdate e u now).amount = e.amount) ∧
      (u.category = none → (applyUpdate e u now).category = e.category) ∧
      (u.date = none → (applyUpdate e u now).date = e.date) ∧
      (u.description = none → (applyUpdate e u now).description = e.description) ∧
      (applyUpdate e u now).updatedAt = now ∧
      (e.updatedAt.code < now.code →
        e.updatedAt.code < (applyUpdate e u now).updatedAt.code)) := by
  constructor
  · intro hf
    simp [updateExpense, hid, hf]
  · intro e hf
    have hresp : updateExpense store id u now =
        { status := 200, success := true, error := [],
          data := some (applyUpdate e u now),
          store := store.map (fun x => if x.id == id then applyUpdate x u now else x) } := by
      simp [updateExpense, hid, hf, hv]
    refine ⟨by rw [hresp], by rw [hresp], by rw [hresp], rfl, rfl,
      ?_, ?_, ?_, ?_, ?_, rfl, ?_⟩
    · intro h0; simp [applyUpdate, h0]
    · intro h0; simp [applyUpdate, h0]
    · intro h0; simp [applyUpdate, h0]
    · intro h0; simp [applyUpdate, h0]
    · intro h0; simp [applyUpdate, h0]
    · intro h0; simpa [applyUpdate] using h0

/-- C3, witness: updating only the title of a stored record. -/
theorem C3_partial_update_frame_witness :
    (updateExpense
      [{ id := "aaaaaaaaaaaaaaaaaaaaaaaa", title := "Lunch", amount := 100,
         category := "Food", date := ⟨2024, 1, 1, 0⟩, description := none,
         createdAt := ⟨2024, 1, 1, 0⟩, updatedAt := ⟨2024, 1, 1, 0⟩ }]
      "aaaaaaaaaaaaaaaaaaaaaaaa" ⟨some "Updated", none, none, none, none⟩
      ⟨2024, 1, 2, 0⟩).status = 200 :=
  ((C3_partial_update_frame
      [{ id := "aaaaaaaaaaaaaaaaaaaaaaaa", title := "Lunch", amount := 100,
         category := "Food", date := ⟨2024, 1, 1, 0⟩, description := none,
         createdAt := ⟨2024, 1, 1, 0⟩, updatedAt := ⟨2024, 1, 1, 0⟩ }]
      "aaaaaaaaaaaaaaaaaaaaaaaa" ⟨some "Updated", none, none, none, none⟩
      ⟨2024, 1, 2, 0⟩ (by decide) (by decide)).2
    { id := "aaaaaaaaaaaaaaaaaaaaaaaa", title := "Lunch", amount := 100,
      category := "Food", date := ⟨2024, 1, 1, 0⟩, description := none,
      createdAt := ⟨2024, 1, 1, 0⟩, updatedAt := ⟨2024, 1, 1, 0⟩ }
    (by decide)).1

theorem sum_map_ite_single {keys : List String} (hnd : keys.Nodup) {x : String}
    (hx : x ∈ keys) (v : Int) :
    (keys.map (fun c => if x = c then v else 0)).sum = v := by
  induction keys with
  | nil => cases hx
  | cons k ks ih =>
    rcases List.mem_cons.mp hx with h | h
    · subst h
      have hz : ((ks.map (fun c => if x = c then v else 0))).sum = 0 := by
        apply List.sum_eq_zero
        intro y hy
        rcases List.mem_map.mp hy with ⟨c, hc, rfl⟩
        have hne : x ≠ c := fun hh => (List.nodup_cons.mp hnd).1 (hh ▸ hc)
        simp [hne]
      simp [hz]
    · have hne : x ≠ k := by
        intro hh
        exact (List.nodup_cons.mp hnd).1 (hh ▸ h)
      simp [hne, ih (List.nodup_cons.mp hnd).2 h]

theorem sum_filter_partition (l : List Expense) (keys : List String)
    (hnd : keys.Nodup) (hcov : ∀ e ∈ l, e.category ∈ keys) :
    (keys.map (fun c =>
      ((l.filter (fun e => e.category == c)).map (fun e => e.amount)).sum)).sum
      = (l.map (fun e => e.amount)).sum := by
  induction l with
  | nil => simp
  | cons e rest ih =>
    have hcov' : ∀ x ∈ rest, x.category ∈ keys :=
      fun x hx => hcov x (List.mem_cons_of_mem e hx)
    have he : e.category ∈ keys := hcov e (List.mem_cons_self e rest)
    have hstep : (keys.map (fun c =>
        ((List.filter (fun x => x.category == c) (e :: rest)).map
          (fun x => x.amount)).sum)).sum
        = (keys.map (fun c => (if e.category = c then e.amount else 0) +
            ((rest.filter (fun x => x.category == c)).map (fun x => x.amount)).sum)).sum := by
      congr 1
      apply List.map_congr_left
      intro c _
      by_cases h : e.category = c <;> simp [List.filter_cons, h]
    rw [hstep, List.sum_map_add, sum_map_ite_single hnd he, ih hcov']
    simp

/-- C7: the per-category totals sum to the grand total; the pairs are
ordered by total descending; every returned category is the category of
at least one stored record (no zero-filling); and every returned total
is the sum of the amounts of exactly the records of its category. -/
theorem C7_category_totals (store : List Expense) :
    ((getTotalByCategory store).map (fun p => p.2)).sum = grandTotal store ∧
    List.Sorted totalDesc (getTotalByCategory store) ∧
    (∀ p ∈ getTotalByCategory store, ∃ e ∈ store, e.category = p.1) ∧
    (∀ p ∈ getTotalByCategory store,
      p.2 = ((store.filter (fun e => e.category == p.1)).map
        (fun e => e.amount)).sum) := by
  refine ⟨?_, ?_, ?_, ?_⟩
  · unfold getTotalByCategory grandTotal
    rw [((List.perm_insertionSort totalDesc _).map (fun p => p.2)).sum_eq,
      List.map_map]
    exact sum_filter_partition store _ (List.nodup_dedup _)
      (fun e he => List.mem_dedup.mpr (List.mem_map_of_mem _ he))
  · exact List.sorted_insertionSort _ _
  · intro p hp
    unfold getTotalByCategory at hp
    have hp2 := (List.perm_insertionSort totalDesc _).mem_iff.mp hp
    rcases List.mem_map.mp hp2 with ⟨c, hc, rfl⟩
    rcases List.mem_map.mp (List.mem_dedup.mp hc) with ⟨e, he, rfl⟩
    exact ⟨e, he, rfl⟩
  · intro p hp
    unfold getTotalByCategory at hp
    have hp2 := (List.perm_insertionSort totalDesc _).mem_iff.mp hp
    rcases List.mem_map.mp hp2 with ⟨c, _, rfl⟩
    rfl

/-- C7, witness: a concrete two-category store. -/
theorem C7_category_totals_witness :
    ((getTotalByCategory
      [{ id := "aaaaaaaaaaaaaaaaaaaaaaaa", title := "Lunch", amount := 100,
         category := "Food", date := ⟨2024, 1, 1, 0⟩, description := none,
         createdAt := ⟨2024, 1, 1, 0⟩, updatedAt := ⟨2024, 1, 1, 0⟩ },
       { id := "bbbbbbbbbbbbbbbbbbbbbbbb", title := "Bus", amount := 50,
         category := "Transportation", date := ⟨2024, 1, 2, 0⟩, description := none,
         createdAt := ⟨2024, 1, 2, 0⟩, updatedAt := ⟨2024, 1, 2, 0⟩ }]).map
      (fun p => p.2)).sum
      = grandTotal
      [{ id := "aaaaaaaaaaaaaaaaaaaaaaaa", title := "Lunch", amount := 100,
         category := "Food", date := ⟨2024, 1, 1, 0⟩, description := none,
         createdAt := ⟨2024, 1, 1, 0⟩, updatedAt := ⟨2024, 1, 1, 0⟩ },
       { id := "bbbbbbbbbbbbbbbbbbbbbbbb", title := "Bus", amount := 50,
         category := "Transportation", date := ⟨2024, 1, 2, 0⟩, description := none,
         createdAt := ⟨2024, 1, 2, 0⟩, updatedAt := ⟨2024, 1, 2, 0⟩ }] :=
  (C7_category_totals _).1

/-- C2 counterexample: a record dated noon (UTC) on December 31 of the
queried year is excluded from the monthly totals — the upper bound of
the `$match` range is midnight at the start of December 31 — although
the claim requires any record dated any time on December 31 of the year
to be included (here as the pair `(12, 5)`). -/
theorem C2_counterexample_dec31_afternoon :
    getMonthlyExpenses
      [{ id := "cccccccccccccccccccccccc", title := "NYE",
         amount := 5, category := "Food",
         date := ⟨2024, 12, 31, 43200000⟩, description := none,
         createdAt := ⟨2024, 12, 31, 43200000⟩,
         updatedAt := ⟨2024, 12, 31, 43200000⟩ }] 2024 = [] ∧
    inYearRange 2024
      { id := "cccccccccccccccccccccccc", title := "NYE",
        amount := 5, category := "Food",
        date := ⟨2024, 12, 31, 43200000⟩, description := none,
        createdAt := ⟨2024, 12, 31, 43200000⟩,
        updatedAt := ⟨2024, 12, 31, 43200000⟩ } = false ∧
    (⟨2024, 12, 31, 43200000⟩ : DateTime).year = 2024 ∧
    (⟨2024, 12, 31, 43200000⟩ : DateTime).month = 12 ∧
    (⟨2024, 12, 31, 43200000⟩ : DateTime).day = 31 := by
  decide

/-- C2 amended: `monthlyTotals(y)` includes exactly the records whose
date lies in the range from `y-01-01T00:00Z` up to and including
midnight at the start of December 31 (`y-12-31T00:00Z`) — records later
on December 31 are excluded — grouped by calendar month 1–12, with
amounts summed per month, pairs ordered by month strictly ascending, and
months with no records absent. -/
theorem C2_amended_monthly_totals (store : List Expense) (y : Int)
    (hm : ∀ e ∈ store, 1 ≤ e.date.month ∧ e.date.month ≤ 12) :
    (∀ p ∈ getMonthlyExpenses store y,
      1 ≤ p.1 ∧ p.1 ≤ 12 ∧
      (∃ e ∈ store, inYearRange y e = true ∧ e.date.month = p.1) ∧
      p.2 = ((monthGroup store y p.1).map (fun e => e.amount)).sum) ∧
    (∀ e ∈ store, inYearRange y e = true →
      ∃ p ∈ getMonthlyExpenses store y, p.1 = e.date.month) ∧
    List.Pairwise (fun p q => p.1 < q.1) (getMonthlyExpenses store y) := by
  have hkey : ∀ (a : Nat) (b : Nat × Int),
      b ∈ (fun m => if (monthGroup store y m).isEmpty then none
        else some (m, ((monthGroup store y m).map (fun e => e.amount)).sum)) a →
      b.1 = a := by
    intro a b hb
    simp only [Option.mem_def] at hb
    by_cases h : (monthGroup store y a).isEmpty
    · simp [h] at hb
    · simp [h] at hb
      rw [← hb]
  refine ⟨?_, ?_, ?_⟩
  · intro p hp
    unfold getMonthlyExpenses at hp
    rcases List.mem_filterMap.mp hp with ⟨m, hmk, hf⟩
    rcases List.mem_map.mp hmk with ⟨n, hn, rfl⟩
    have hn12 : n < 12 := List.mem_range.mp hn
    by_cases hemp : (monthGroup store y (n + 1)).isEmpty
    · simp [hemp] at hf
    · simp only [if_neg hemp] at hf
      rcases Option.some.inj hf with rfl
      have hne : monthGroup store y (n + 1) ≠ [] := by
        intro hh
        simp [hh] at hemp
      rcases List.exists_mem_of_ne_nil _ hne with ⟨e, he⟩
      rcases List.mem_filter.mp he with ⟨hes, hpe⟩
      simp only [Bool.and_eq_true, beq_iff_eq] at hpe
      exact ⟨Nat.le_add_left 1 n, by omega, ⟨e, hes, hpe.1, hpe.2⟩, rfl⟩
  · intro e he hr
    obtain ⟨h1, h2⟩ := hm e he
    have hmkeys : e.date.month ∈ (List.range 12).map (fun n => n + 1) :=
      List.mem_map.mpr ⟨e.date.month - 1, List.mem_range.mpr (by omega), by omega⟩
    have hmem : e ∈ monthGroup store y e.date.month :=
      List.mem_filter.mpr ⟨he, by simp [hr]⟩
    have hnemp : ¬(monthGroup store y e.date.month).isEmpty = true := by
      rw [List.isEmpty_iff]
      exact List.ne_nil_of_mem hmem
    refine ⟨(e.date.month,
      ((monthGroup store y e.date.month).map (fun x => x.amount)).sum), ?_, rfl⟩
    unfold getMonthlyExpenses
    exact List.mem_filterMap.mpr ⟨e.date.month, hmkeys, by rw [if_neg hnemp]⟩
  · unfold getMonthlyExpenses
    have hkeys : List.Pairwise (fun a b => a < b)
        ((List.range 12).map (fun n => n + 1)) := by
      rw [List.pairwise_map]
      exact (List.pairwise_lt_range 12).imp (by omega)
    exact List.Pairwise.filterMap _
      (fun a a' hlt b hb b' hb' => by
        rw [hkey a b hb, hkey a' b' hb']
        exact hlt) hkeys

/-- C2 amended, witness: a concrete mid-January record. -/
theorem C2_amended_monthly_totals_witness :
    List.Pairwise (fun p q : Nat × Int => p.1 < q.1)
      (getMonthlyExpenses
        [{ id := "dddddddddddddddddddddddd", title := "Groceries",
           amount := 7, category := "Food",
           date := ⟨2024, 1, 15, 0⟩, description := none,
           createdAt := ⟨2024, 1, 15, 0⟩, updatedAt := ⟨2024, 1, 15, 0⟩ }] 2024) :=
  (C2_amended_monthly_totals _ 2024 (by decide)).2.2
